import Mathlib

/-!
Verification of the SeaTalk backlog webhook bot (src/app.py).

The Python source is shallowly embedded in Lean:

* Python strings are Lean `String`; `str.strip()`, `str.lower()` and
  `sep.join(...)` are `pyStrip`, `pyLower` and `pyJoin` below.
* Spreadsheet records returned by `worksheet.get_all_records()` are ordered
  mappings from column name to a cell value (string or integer), embedded as
  association lists preserving column order.
* Parsed JSON bodies are `PyVal` (None, bool, int, str, list, dict), with
  dicts as ordered association lists and Python truthiness made explicit.
* External effects are passed in as explicit values: the raw request bytes,
  the header and environment strings, the outcome of `request.get_json()`,
  the outcome of the Google-Sheets fetch, and the outcome of the SeaTalk
  send.  Raised Python exceptions become `Except` errors; the handler's
  outer `try/except` becomes the corresponding catch-all branches.
* The HMAC-SHA256 hex digest is passed to the verifier as an explicit
  function argument, since none of the properties proved here depend on the
  internals of the digest.
-/

namespace App

/-- Characters removed by Python `str.strip()` (Python whitespace: the ASCII
whitespace characters plus the common Unicode ones `str.isspace` accepts). -/
def isPySpace (c : Char) : Bool :=
  c = ' ' || c = '\t' || c = '\n' || c = '\r' ||
  c = '\x0b' || c = '\x0c' || c = '\x1c' || c = '\x1d' ||
  c = '\x1e' || c = '\x1f' || c = '\x85' || c = '\xa0'

/-- Python `str.strip()` on the character list: drop leading and trailing
whitespace. -/
def stripChars (l : List Char) : List Char :=
  List.rdropWhile isPySpace (l.dropWhile isPySpace)

/-- Python `str.strip()`. -/
def pyStrip (s : String) : String :=
  ⟨stripChars s.data⟩

/-- Python `str.lower()` (character-wise lowering; the letters relevant to
this program are ASCII). -/
def pyLower (s : String) : String :=
  ⟨s.data.map Char.toLower⟩

/-- Python `sep.join(parts)`. -/
def pyJoin (sep : String) : List String → String
  | [] => ""
  | [x] => x
  | x :: y :: xs => x ++ sep ++ pyJoin sep (y :: xs)

/-- A spreadsheet cell as returned by `worksheet.get_all_records()`:
a string or an integer. -/
inductive Cell where
  | str (s : String)
  | int (n : Int)
deriving DecidableEq

/-- Python truthiness of a cell value. -/
def Cell.truthy : Cell → Bool
  | .str s => !s.isEmpty
  | .int n => n != 0

/-- Python `str(value)` on a cell value. -/
def Cell.pyStr : Cell → String
  | .str s => s
  | .int n => toString n

/-- A spreadsheet row: the ordered column-name-to-value mapping produced by
`get_all_records` (insertion order is the spreadsheet column order). -/
abbrev Row := List (String × Cell)

/-- Python `row.get(k)`: the value of the first matching column, if any. -/
def rowGet (row : Row) (k : String) : Option Cell :=
  (row.find? (fun kv => kv.1 == k)).map (fun kv => kv.2)

/-- Python `row.get(k, default)`. -/
def rowGetD (row : Row) (k : String) (d : Cell) : Cell :=
  (rowGet row k).getD d

/-- Line 88: `status_value = row.get('Status', row.get('status', ''))`. -/
def statusValue (row : Row) : Cell :=
  rowGetD row "Status" (rowGetD row "status" (.str ""))

/-- Lines 91 to 94: the nested `row.get` chain trying the task-name columns
in priority order, with `None` as the final default. -/
def taskNameValue (row : Row) : Option Cell :=
  match rowGet row "Nome da tarefa" with
  | some v => some v
  | none =>
    match rowGet row "Tarefa" with
    | some v => some v
    | none =>
      match rowGet row "tarefa" with
      | some v => some v
      | none => rowGet row "nome"

/-- Lines 91 to 98: the resolved task name of a row, with the fallback to the
first column value (`list(row.values())[0]`) when no named column matched. -/
def resolvedTaskName (row : Row) : Option Cell :=
  match taskNameValue row with
  | some v => some v
  | none =>
    match row with
    | [] => none
    | kv :: _ => some kv.2

/-- Lines 85 to 102: the filtering loop of `get_backlog_tasks` over the
fetched rows.  `.error ()` models the Python `AttributeError` raised when a
truthy non-string status value reaches `.strip()`; that exception aborts the
whole loop, so no task list is produced in that case. -/
def backlogOfRows : List Row → Except Unit (List String)
  | [] => .ok []
  | row :: rest =>
    let sv := statusValue row
    if sv.truthy then
      match sv with
      | .str s =>
        if pyLower (pyStrip s) == "backlog" then
          match resolvedTaskName row with
          | none => backlogOfRows rest
          | some v =>
            if v.truthy && !(pyStrip v.pyStr).isEmpty then
              (backlogOfRows rest).map (fun ts => pyStrip v.pyStr :: ts)
            else backlogOfRows rest
        else backlogOfRows rest
      | .int _ => .error ()
    else backlogOfRows rest

/-- Lines 59 to 114: `get_backlog_tasks`, with the Google-Sheets access
abstracted as an `Except` argument: `.error e` models any exception raised
while decoding credentials, opening the spreadsheet or reading the records
(the source logs and re-raises all of them); `.ok rows` models a successful
`get_all_records()` call. -/
def get_backlog_tasks (fetch : Except String (List Row)) :
    Except String (List String) :=
  match fetch with
  | .error e => .error e
  | .ok rows =>
    match backlogOfRows rows with
    | .error _ => .error "AttributeError"
    | .ok ts => .ok ts

/-- Line 223: the fixed reply for an empty backlog. -/
def emptyBacklogMessage : String :=
  "📋 *Backlog atual:*\n\nNenhuma tarefa no backlog no momento."

/-- Line 225: the header line of a non-empty backlog reply. -/
def backlogHeader : String :=
  "📋 *Backlog atual:*\n"

/-- Lines 212 to 230: `format_backlog_message`. -/
def format_backlog_message (tasks : List String) : String :=
  if tasks.isEmpty then emptyBacklogMessage
  else pyJoin "\n" (backlogHeader :: tasks.map (fun t => "• " ++ t))

/-- Lines 166 to 209: `verify_webhook_signature`.  The HMAC-SHA256 hex digest
over the secret and the raw body bytes is the explicit argument `hmacHex`.
`signing_secret = none` models a missing environment variable and
`some ""` an empty one; both are falsy in Python. -/
def verify_webhook_signature (hmacHex : String → List Nat → String)
    (request_data : List Nat) (signature : String)
    (signing_secret : Option String) : Bool :=
  match signing_secret with
  | none => true
  | some secret =>
    if secret.isEmpty then true
    else if signature.isEmpty then false
    else pyLower signature == pyLower (hmacHex secret request_data)

/-- A parsed JSON value as Python holds it: `None`, bool, int, str, list or
dict (dicts as ordered association lists). -/
inductive PyVal where
  | none
  | bool (b : Bool)
  | int (n : Int)
  | str (s : String)
  | list (l : List PyVal)
  | dict (d : List (String × PyVal))

/-- Python truthiness of a JSON value. -/
def PyVal.truthy : PyVal → Bool
  | .none => false
  | .bool b => b
  | .int n => n != 0
  | .str s => !s.isEmpty
  | .list l => !l.isEmpty
  | .dict d => !d.isEmpty

/-- Python `v == lit` for a string literal: true exactly when `v` is that
string (comparisons between different Python types are simply unequal). -/
def PyVal.eqStr : PyVal → String → Bool
  | .str t, s => t == s
  | _, _ => false

/-- Python `d.get(k)` on a parsed JSON object. -/
def dictGet (d : List (String × PyVal)) (k : String) : Option PyVal :=
  (d.find? (fun kv => kv.1 == k)).map (fun kv => kv.2)

/-- Python `d.get(k, default)` on a parsed JSON object. -/
def dictGetD (d : List (String × PyVal)) (k : String) (dflt : PyVal) : PyVal :=
  (dictGet d k).getD dflt

mutual

/-- Every string occurring anywhere in a JSON value: string leaves and
object keys, at any nesting depth. -/
def PyVal.strings : PyVal → List String
  | .none => []
  | .bool _ => []
  | .int _ => []
  | .str s => [s]
  | .list l => stringsOfList l
  | .dict d => stringsOfPairs d

/-- Strings of every element of a JSON array. -/
def stringsOfList : List PyVal → List String
  | [] => []
  | v :: vs => PyVal.strings v ++ stringsOfList vs

/-- Keys and strings of every entry of a JSON object. -/
def stringsOfPairs : List (String × PyVal) → List String
  | [] => []
  | kv :: kvs => kv.1 :: (PyVal.strings kv.2 ++ stringsOfPairs kvs)

end

/-- Python truthiness of an optional environment string (`None` and the empty
string are falsy). -/
def envTruthy : Option String → Bool
  | Option.none => false
  | some s => !s.isEmpty

/-- Line 266 and friends: the acknowledgement body `{"status": "ok"}`. -/
def ackOk : PyVal :=
  .dict [("status", .str "ok")]

/-- Line 256: the 400 body `{"status": "error", "message": "Invalid JSON"}`. -/
def invalidJsonResp : PyVal :=
  .dict [("status", .str "error"), ("message", .str "Invalid JSON")]

/-- Line 249: the 401 body for a rejected signature. -/
def invalidSignatureResp : PyVal :=
  .dict [("status", .str "error"), ("message", .str "Invalid signature")]

/-- Line 288: the 500 body for a missing bot token. -/
def tokenMissingResp : PyVal :=
  .dict [("status", .str "error"), ("message", .str "Bot token not configured")]

/-- Line 296: the fixed user-visible reply sent when fetching the backlog
raised. -/
def backlogErrorMessage : String :=
  "❌ Desculpe, ocorreu um erro ao consultar o backlog. Tente novamente mais tarde."

/-- Everything the `/webhook` handler consumes: raw body bytes, the signature
header (empty string when absent), the two environment variables, the outcome
of `request.get_json()` (`.error ()` when the call raises, `.ok PyVal.none`
when it returns `None`, such as for a body of JSON null), the outcome of the
Google-Sheets access, and the outcome of the SeaTalk send call. -/
structure WebhookInput where
  request_data : List Nat
  signature : String
  signing_secret : Option String
  app_token : Option String
  body : Except Unit PyVal
  fetch : Except String (List Row)
  send_ok : Bool

/-- The observable outcome of one `/webhook` request: the HTTP status, the
JSON response body, and the list of SeaTalk send calls attempted (group id
value paired with the message text). -/
structure WebhookResult where
  status : Nat
  response : PyVal
  sends : List (PyVal × String)

/-- Lines 251 to 311: the handler after the signature gate.  Branches that
raise inside the outer `try` (a raising `get_json`, or an attribute access on
a value of the wrong type) are answered by the catch-all `200 {"status":
"ok"}` of lines 308 to 311. -/
def webhook_events (body : Except Unit PyVal) (app_token : Option String)
    (fetch : Except String (List Row)) : WebhookResult :=
  match body with
  | .error _ => ⟨200, ackOk, []⟩
  | .ok data =>
    if !data.truthy then ⟨400, invalidJsonResp, []⟩
    else
      match data with
      | .dict dd =>
        if !(dictGetD dd "event_type" (.str "")).eqStr "new_message" then
          ⟨200, ackOk, []⟩
        else
          match dictGetD dd "message" (.dict []) with
          | .dict md =>
            match dictGetD md "text" (.str "") with
            | .str rawText =>
              match dictGetD dd "chat" (.dict []) with
              | .dict cd =>
                if pyLower (pyStrip rawText) == "backlog" then
                  if envTruthy app_token then
                    let response_message :=
                      match get_backlog_tasks fetch with
                      | .ok tasks => format_backlog_message tasks
                      | .error _ => backlogErrorMessage
                    ⟨200, ackOk, [(dictGetD cd "group_id" (.str ""), response_message)]⟩
                  else ⟨500, tokenMissingResp, []⟩
                else ⟨200, ackOk, []⟩
              | _ => ⟨200, ackOk, []⟩
            | _ => ⟨200, ackOk, []⟩
          | _ => ⟨200, ackOk, []⟩
      | _ => ⟨200, ackOk, []⟩

/-- Lines 233 to 311: the `/webhook` handler.  The signature gate of lines
244 to 249 runs first, on the raw body bytes; everything else is
`webhook_events`. -/
def webhook (hmacHex : String → List Nat → String) (inp : WebhookInput) :
    WebhookResult :=
  if envTruthy inp.signing_secret &&
      !(verify_webhook_signature hmacHex inp.request_data inp.signature
          inp.signing_secret) then
    ⟨401, invalidSignatureResp, []⟩
  else
    webhook_events inp.body inp.app_token inp.fetch

/-! Concrete sample values used by witnesses and counterexamples. -/

/-- A degenerate digest function; the claims settled below do not depend on
the digest internals. -/
def hmacZero : String → List Nat → String := fun _ _ => ""

/-- Two sample spreadsheet rows: one backlog row (with surrounding
whitespace in the status cell) and one done row. -/
def sampleRows : List Row :=
  [[("Status", Cell.str " Backlog "), ("Tarefa", Cell.str "Fix bug")],
   [("Status", Cell.str "Done"), ("Tarefa", Cell.str "Shipped")]]

/-- A triggering body: `new_message` event whose text is the trigger word. -/
def triggerBody : PyVal :=
  .dict [("event_type", .str "new_message"),
         ("message", .dict [("text", .str "Backlog")]),
         ("chat", .dict [("group_id", .str "G1")])]

/-- A non-triggering body: `new_message` event with text "Hello". -/
def helloBody : PyVal :=
  .dict [("event_type", .str "new_message"),
         ("message", .dict [("text", .str "Hello")]),
         ("chat", .dict [("group_id", .str "G1")])]

/-- The SeaTalk endpoint-verification handshake body: the challenge token
sits under the `event` field of an `event_verification` event. -/
def challengeBody : PyVal :=
  .dict [("event_type", .str "event_verification"),
         ("event", .dict [("seatalk_challenge", .str "tok123")])]

/-- A handshake request: no signing secret configured, bot token present. -/
def inpChallenge : WebhookInput :=
  ⟨[], "", Option.none, some "tok", .ok challengeBody, .ok [], true⟩

/-- A request whose body parses to `None` (for instance the body `null`):
`request.get_json()` returns `None`. -/
def inpNullBody : WebhookInput :=
  ⟨[], "", Option.none, some "tok", .ok PyVal.none, .ok [], true⟩

/-- A request whose body is the empty JSON object `{}`: literally an event
with no fields. -/
def inpEmptyDict : WebhookInput :=
  ⟨[], "", Option.none, some "tok", .ok (.dict []), .ok [], true⟩

/-- A request whose body raises inside `request.get_json()` (syntactically
invalid JSON). -/
def inpRaise : WebhookInput :=
  ⟨[], "", Option.none, some "tok", .error (), .ok [], true⟩

/-- A triggering request with the bot token environment variable unset. -/
def inpNoToken : WebhookInput :=
  ⟨[], "", Option.none, Option.none, .ok triggerBody, .ok sampleRows, true⟩

/-- A non-triggering `new_message` request. -/
def inpHello : WebhookInput :=
  ⟨[], "", Option.none, some "tok", .ok helloBody, .ok sampleRows, true⟩

/-- A triggering request whose spreadsheet fetch raises. -/
def inpFetchError : WebhookInput :=
  ⟨[], "", Option.none, some "tok", .ok triggerBody, .error "boom", true⟩

/-! Helper lemmas. -/

/-- Stripping a character list twice is the same as stripping it once. -/
theorem stripChars_idem (l : List Char) :
    stripChars (stripChars l) = stripChars l := by
  unfold stripChars
  have h1 : (List.rdropWhile isPySpace (l.dropWhile isPySpace)).dropWhile isPySpace
      = List.rdropWhile isPySpace (l.dropWhile isPySpace) := by
    rw [List.dropWhile_eq_self_iff]
    intro hl
    have hpre : List.rdropWhile isPySpace (l.dropWhile isPySpace) <+: l.dropWhile isPySpace :=
      List.rdropWhile_prefix _ _
    have hlen : 0 < (l.dropWhile isPySpace).length := lt_of_lt_of_le hl hpre.length_le
    have hget := List.IsPrefix.getElem hpre hl
    rw [List.get_eq_getElem, hget]
    have hnot := List.dropWhile_get_zero_not isPySpace l hlen
    rw [List.get_eq_getElem] at hnot
    exact hnot
  rw [h1, List.rdropWhile_idempotent]

/-- Python `strip` is idempotent. -/
theorem pyStrip_idem (s : String) : pyStrip (pyStrip s) = pyStrip s := by
  unfold pyStrip
  simp [stripChars_idem]

/-- The first character of a `pyJoin` starting with a non-empty part is that
part's first character. -/
theorem pyJoin_head (sep h : String) (t : List String) (hh : h.data ≠ []) :
    (pyJoin sep (h :: t)).data.head? = h.data.head? := by
  cases t with
  | nil => rfl
  | cons y ys =>
    show ((h ++ sep ++ pyJoin sep (y :: ys)).data).head? = h.data.head?
    rw [String.data_append, String.data_append]
    rw [List.append_assoc]
    cases hd : h.data with
    | nil => exact absurd hd hh
    | cons c cs => simp [hd]

/-- Every formatted backlog message starts with the clipboard symbol. -/
theorem format_head (ts : List String) :
    (format_backlog_message ts).data.head? = some '📋' := by
  unfold format_backlog_message
  cases ts with
  | nil => rfl
  | cons t rest =>
    rw [List.isEmpty_cons]
    simp only [if_false, Bool.false_eq_true, List.map_cons]
    rw [pyJoin_head]
    · rfl
    · decide

/-- The fixed fetch-failure reply differs from every formatted task list
(their first characters differ). -/
theorem errorMessage_ne_format (ts : List String) :
    backlogErrorMessage ≠ format_backlog_message ts := by
  intro h
  have h2 : backlogErrorMessage.data.head? = (format_backlog_message ts).data.head? := by
    rw [h]
  rw [format_head] at h2
  have h3 : backlogErrorMessage.data.head? = some '❌' := rfl
  rw [h3] at h2
  simp at h2

/-- The loop of `get_backlog_tasks` shrinks the row list, and every produced
task comes from a row whose status, stripped and lowered, is `"backlog"`,
being the stripped string form of that row's resolved task name, non-empty. -/
theorem backlogOfRows_sound (rows : List Row) (ts : List String)
    (h : backlogOfRows rows = .ok ts) :
    ts.length ≤ rows.length ∧
    ∀ t ∈ ts, ∃ row ∈ rows,
      (∃ s : String, statusValue row = Cell.str s ∧ pyLower (pyStrip s) = "backlog") ∧
      ∃ v : Cell, resolvedTaskName row = some v ∧ t = pyStrip v.pyStr ∧
        (pyStrip v.pyStr).isEmpty = false := by
  induction rows generalizing ts with
  | nil =>
    simp only [backlogOfRows] at h
    cases h
    exact ⟨Nat.le_refl 0, by simp⟩
  | cons row rest ih =>
    have tail : backlogOfRows rest = Except.ok ts →
        ts.length ≤ (row :: rest).length ∧
        ∀ t ∈ ts, ∃ r ∈ row :: rest,
          (∃ s : String, statusValue r = Cell.str s ∧ pyLower (pyStrip s) = "backlog") ∧
          ∃ v : Cell, resolvedTaskName r = some v ∧ t = pyStrip v.pyStr ∧
            (pyStrip v.pyStr).isEmpty = false := by
      intro h2
      obtain ⟨hlen, hmem⟩ := ih ts h2
      refine ⟨Nat.le_succ_of_le hlen, ?_⟩
      intro t ht
      obtain ⟨r, hr, hrest⟩ := hmem t ht
      exact ⟨r, List.mem_cons_of_mem _ hr, hrest⟩
    simp only [backlogOfRows] at h
    split at h
    · split at h
      · rename_i s hsv
        split at h
        · rename_i hbk
          split at h
          · exact tail h
          · rename_i v hrn
            split at h
            · rename_i hg
              cases hrec : backlogOfRows rest with
              | error e => rw [hrec] at h; cases h
              | ok ts' =>
                rw [hrec] at h
                simp only [Except.map] at h
                cases h
                obtain ⟨hlen, hmem⟩ := ih ts' hrec
                constructor
                · exact Nat.succ_le_succ hlen
                · intro t ht
                  rcases List.mem_cons.mp ht with he | hm
                  · refine ⟨row, List.mem_cons_self row rest, ⟨s, hsv, by simpa using hbk⟩,
                      v, hrn, he, ?_⟩
                    have hg2 := hg
                    simp only [Bool.and_eq_true, Bool.not_eq_true'] at hg2
                    exact hg2.2
                  · obtain ⟨r, hr, hrest⟩ := hmem t hm
                    exact ⟨r, List.mem_cons_of_mem _ hr, hrest⟩
            · exact tail h
        · exact tail h
      · cases h
    · exact tail h

/-- The post-authentication handler never answers 401. -/
theorem webhook_events_status_ne_401 (b : Except Unit PyVal) (tok : Option String)
    (f : Except String (List Row)) : (webhook_events b tok f).status ≠ 401 := by
  unfold webhook_events
  cases b with
  | error e =>
    show (200 : Nat) ≠ 401
    decide
  | ok data =>
    dsimp only
    repeat' split
    all_goals first
      | (show (200 : Nat) ≠ 401; decide)
      | (show (400 : Nat) ≠ 401; decide)
      | (show (500 : Nat) ≠ 401; decide)

/-- When the signature gate does not reject (secret unset or signature
valid), the handler is exactly `webhook_events`. -/
theorem webhook_gate_pass (hmacHex : String → List Nat → String)
    (inp : WebhookInput)
    (hGate : envTruthy inp.signing_secret = false ∨
      verify_webhook_signature hmacHex inp.request_data inp.signature
        inp.signing_secret = true) :
    webhook hmacHex inp = webhook_events inp.body inp.app_token inp.fetch := by
  unfold webhook
  rcases hGate with h | h <;> simp [h]

/-- A dict whose `"event_type"` entry resolves to a non-default value is a
truthy (non-empty) dict. -/
theorem dict_truthy_of_event_type (dd : List (String × PyVal))
    (hET : dictGetD dd "event_type" (.str "") = .str "new_message") :
    (PyVal.dict dd).truthy = true := by
  obtain ⟨kv, l, rfl⟩ : ∃ kv l, dd = kv :: l := by
    cases dd with
    | nil => simp [dictGetD, dictGet] at hET
    | cons kv l => exact ⟨kv, l, rfl⟩
  rfl

/-- Reduction of `webhook_events` on a well-shaped `new_message` body. -/
theorem webhook_events_new_message (dd md cd : List (String × PyVal))
    (t : String) (tok : Option String) (fetch : Except String (List Row))
    (hET : dictGetD dd "event_type" (.str "") = .str "new_message")
    (hMsg : dictGetD dd "message" (.dict []) = .dict md)
    (hText : dictGetD md "text" (.str "") = .str t)
    (hChat : dictGetD dd "chat" (.dict []) = .dict cd) :
    webhook_events (.ok (.dict dd)) tok fetch =
      (if pyLower (pyStrip t) == "backlog" then
        if envTruthy tok then
          ⟨200, ackOk, [(dictGetD cd "group_id" (.str ""),
            match get_backlog_tasks fetch with
            | .ok tasks => format_backlog_message tasks
            | .error _ => backlogErrorMessage)]⟩
        else ⟨500, tokenMissingResp, []⟩
      else ⟨200, ackOk, []⟩) := by
  have htru := dict_truthy_of_event_type dd hET
  unfold webhook_events
  dsimp only
  rw [htru, hET, hMsg]
  dsimp only
  rw [hText]
  dsimp only
  rw [hChat]
  simp [PyVal.eqStr]

/-- A non-empty formatted message is the header followed by one
`"\n• task"` block per task, in input order. -/
theorem format_backlog_message_cons (t : String) (rest : List String) :
    format_backlog_message (t :: rest)
      = backlogHeader ++ pyJoin "" ((t :: rest).map (fun x => "\n• " ++ x)) := by
  unfold format_backlog_message
  rw [List.isEmpty_cons]
  simp only [if_false, Bool.false_eq_true]
  suffices h : ∀ (l : List String) (hd : String),
      pyJoin "\n" (hd :: l.map (fun x => "• " ++ x))
        = hd ++ pyJoin "" (l.map (fun x => "\n• " ++ x)) by
    exact h (t :: rest) backlogHeader
  intro l
  induction l with
  | nil => intro hd; simp [pyJoin]
  | cons y ys ih =>
    intro hd
    show hd ++ "\n" ++ pyJoin "\n" (("• " ++ y) :: ys.map (fun x => "• " ++ x))
        = hd ++ pyJoin "" (("\n• " ++ y) :: ys.map (fun x => "\n• " ++ x))
    rw [ih ("• " ++ y)]
    cases hys : ys.map (fun x => "\n• " ++ x) with
    | nil =>
      show hd ++ "\n" ++ ("• " ++ y ++ pyJoin "" []) = hd ++ ("\n• " ++ y)
      simp only [pyJoin, String.append_empty]
      rw [String.append_assoc]
      rfl
    | cons z zs =>
      show hd ++ "\n" ++ ("• " ++ y ++ pyJoin "" (z :: zs))
          = hd ++ ("\n• " ++ y ++ "" ++ pyJoin "" (z :: zs))
      simp only [String.append_empty]
      rw [String.append_assoc]
      rfl

/-! The claims. -/

/-- C1 counterexample: a request whose body carries the platform challenge
token (the SeaTalk `event_verification` shape, challenge value `"tok123"`)
is answered with the constant `200 {"status": "ok"}` acknowledgement; the
challenge value occurs in the body but nowhere in the response payload, so
the dispatcher does not echo it, refuting the claim that it does. -/
theorem challenge_not_echoed_counterexample :
    webhook hmacZero inpChallenge = ⟨200, ackOk, []⟩ ∧
    "tok123" ∈ PyVal.strings challengeBody ∧
    "tok123" ∉ PyVal.strings ackOk := by
  refine ⟨rfl, ?_, ?_⟩
  · simp [challengeBody, PyVal.strings, stringsOfPairs, stringsOfList]
  · simp [ackOk, PyVal.strings, stringsOfPairs, stringsOfList]

/-- C1 (amended): the dispatcher implements no handshake.  For every
challenge value, a request whose body is the platform handshake shape (the
challenge token under the `event` field of an `event_verification` event),
with no signing secret configured, receives the constant success
acknowledgement `200 {"status": "ok"}` with no outbound send — independent
of the challenge value, which is never echoed (the acknowledgement contains
only the strings `"status"` and `"ok"`). -/
theorem no_handshake_challenge_ignored (hmacHex : String → List Nat → String)
    (c : String) (raw : List Nat) (sig : String) (tok : Option String)
    (fetch : Except String (List Row)) (so : Bool) :
    webhook hmacHex ⟨raw, sig, Option.none, tok,
        .ok (.dict [("event_type", .str "event_verification"),
                    ("event", .dict [("seatalk_challenge", .str c)])]), fetch, so⟩
      = ⟨200, ackOk, []⟩ ∧
    PyVal.strings ackOk = ["status", "ok"] := by
  refine ⟨rfl, ?_⟩
  simp [ackOk, PyVal.strings, stringsOfPairs, stringsOfList]

/-- C2 counterexample: a request whose body parses to no structured data is
rejected with an error response.  A body parsing to `None` (for instance
the body `null`, for which `request.get_json()` returns `None`) and the
empty JSON object (an event with no fields) are both answered
`400 {"status": "error", "message": "Invalid JSON"}`, not the success
acknowledgement — refuting the claim that a body with no fields is accepted
and that no malformed body ever receives an error response. -/
theorem malformed_body_rejected_counterexample :
    webhook hmacZero inpNullBody = ⟨400, invalidJsonResp, []⟩ ∧
    webhook hmacZero inpEmptyDict = ⟨400, invalidJsonResp, []⟩ ∧
    (webhook hmacZero inpNullBody).status ≠ 200 := by
  refine ⟨rfl, rfl, ?_⟩
  show (400 : Nat) ≠ 200
  decide

/-- C2 (amended): two distinct malformed-body paths exist.  When
`request.get_json()` raises (syntactically invalid JSON), the outer
exception handler answers `200 {"status": "ok"}` with no send; but when the
body parses to a falsy document (`None`/JSON null, an empty object or
array, an empty string, zero, false), the dispatcher rejects it with
`400 "Invalid JSON"`.  So a raising parse is never surfaced as an error,
while an empty parsed document is — the code does not treat malformed
bodies as empty events. -/
theorem malformed_body_paths (hmacHex : String → List Nat → String)
    (inp : WebhookInput)
    (hGate : envTruthy inp.signing_secret = false ∨
      verify_webhook_signature hmacHex inp.request_data inp.signature
        inp.signing_secret = true) :
    (inp.body = .error () → webhook hmacHex inp = ⟨200, ackOk, []⟩) ∧
    (∀ v : PyVal, inp.body = .ok v → v.truthy = false →
      webhook hmacHex inp = ⟨400, invalidJsonResp, []⟩) := by
  rw [webhook_gate_pass hmacHex inp hGate]
  constructor
  · intro hb
    rw [hb]
    rfl
  · intro v hb hv
    rw [hb]
    unfold webhook_events
    dsimp only
    rw [hv]
    rfl

/-- C2 witness: a raising parse is acknowledged `200 ok`; a body parsing to
`None` is rejected `400 Invalid JSON`. -/
theorem malformed_body_paths_witness :
    webhook hmacZero inpRaise = ⟨200, ackOk, []⟩ ∧
    webhook hmacZero inpNullBody = ⟨400, invalidJsonResp, []⟩ :=
  ⟨(malformed_body_paths hmacZero inpRaise (Or.inl rfl)).1 rfl,
   (malformed_body_paths hmacZero inpNullBody (Or.inl rfl)).2 PyVal.none rfl rfl⟩

/-- C3 counterexample: a triggering request (event `new_message`, text
`"Backlog"`) with the bot token environment variable unset is answered
`500 {"status": "error", "message": "Bot token not configured"}` — not the
HTTP 200 acknowledgement the claim promises — though indeed no send is
attempted. -/
theorem token_missing_500_counterexample :
    webhook hmacZero inpNoToken = ⟨500, tokenMissingResp, []⟩ ∧
    (webhook hmacZero inpNoToken).status ≠ 200 ∧
    (webhook hmacZero inpNoToken).sends = [] := by
  refine ⟨rfl, ?_, rfl⟩
  show (500 : Nat) ≠ 200
  decide

/-- C3 (amended): for every triggering request (event `new_message`, text
equal to `"backlog"` case-insensitively after trimming) whose bot token is
missing or empty, no outbound send is attempted and the dispatcher responds
`500 "Bot token not configured"` — an error status, not the HTTP 200
acknowledgement. -/
theorem token_missing_aborts_with_500 (hmacHex : String → List Nat → String)
    (inp : WebhookInput) {dd md cd : List (String × PyVal)} {t : String}
    (hGate : envTruthy inp.signing_secret = false ∨
      verify_webhook_signature hmacHex inp.request_data inp.signature
        inp.signing_secret = true)
    (hBody : inp.body = .ok (.dict dd))
    (hET : dictGetD dd "event_type" (.str "") = .str "new_message")
    (hMsg : dictGetD dd "message" (.dict []) = .dict md)
    (hText : dictGetD md "text" (.str "") = .str t)
    (hChat : dictGetD dd "chat" (.dict []) = .dict cd)
    (hTrig : pyLower (pyStrip t) = "backlog")
    (hTok : inp.app_token = Option.none ∨ inp.app_token = some "") :
    webhook hmacHex inp = ⟨500, tokenMissingResp, []⟩ := by
  rw [webhook_gate_pass hmacHex inp hGate, hBody,
    webhook_events_new_message dd md cd t _ _ hET hMsg hText hChat]
  rw [if_pos (by simp [hTrig])]
  rcases hTok with h | h <;> rw [h] <;> rfl

/-- C3 witness: the amended claim at the concrete no-token triggering
request. -/
theorem token_missing_aborts_with_500_witness :
    webhook hmacZero inpNoToken = ⟨500, tokenMissingResp, []⟩ :=
  token_missing_aborts_with_500 hmacZero inpNoToken (Or.inl rfl) rfl rfl rfl rfl rfl
    (by decide) (Or.inl rfl)

/-- C4: whenever the backlog filter returns a task list, it has at most as
many tasks as there were fetched rows, and every returned task originates
from a row whose resolved status value, stripped and lowercased, is exactly
`"backlog"`: the task is the stripped string form of that row's resolved
task name. -/
theorem get_backlog_tasks_sound (rows : List Row) (ts : List String)
    (h : get_backlog_tasks (.ok rows) = .ok ts) :
    ts.length ≤ rows.length ∧
    ∀ t ∈ ts, ∃ row ∈ rows,
      (∃ s : String, statusValue row = Cell.str s ∧ pyLower (pyStrip s) = "backlog") ∧
      ∃ v : Cell, resolvedTaskName row = some v ∧ t = pyStrip v.pyStr := by
  have hloop : backlogOfRows rows = .ok ts := by
    unfold get_backlog_tasks at h
    dsimp only at h
    cases hrec : backlogOfRows rows with
    | error e =>
      rw [hrec] at h
      simp at h
    | ok ts2 =>
      rw [hrec] at h
      simp at h
      rw [h]
  obtain ⟨hlen, hmem⟩ := backlogOfRows_sound rows ts hloop
  refine ⟨hlen, ?_⟩
  intro t ht
  obtain ⟨row, hrow, hst, v, hv, heq, _⟩ := hmem t ht
  exact ⟨row, hrow, hst, v, hv, heq⟩

/-- C4 witness: on the two sample rows the filter returns the single task
`"Fix bug"`, and the soundness theorem applies to it. -/
theorem get_backlog_tasks_sound_witness :
    (["Fix bug"] : List String).length ≤ sampleRows.length ∧
    ∃ row ∈ sampleRows,
      (∃ s : String, statusValue row = Cell.str s ∧ pyLower (pyStrip s) = "backlog") ∧
      ∃ v : Cell, resolvedTaskName row = some v ∧ "Fix bug" = pyStrip v.pyStr :=
  ⟨(get_backlog_tasks_sound sampleRows ["Fix bug"] rfl).1,
   (get_backlog_tasks_sound sampleRows ["Fix bug"] rfl).2 "Fix bug" (by simp)⟩

/-- C6: a `new_message` event whose text, stripped and lowercased, is not
the trigger word `"backlog"` is acknowledged `200 {"status": "ok"}` with
no outbound send; the result is the same for every bot token and every
fetch outcome, so neither the token nor the spreadsheet is used. -/
theorem non_trigger_message_no_send (hmacHex : String → List Nat → String)
    (inp : WebhookInput) {dd md cd : List (String × PyVal)} {t : String}
    (hGate : envTruthy inp.signing_secret = false ∨
      verify_webhook_signature hmacHex inp.request_data inp.signature
        inp.signing_secret = true)
    (hBody : inp.body = .ok (.dict dd))
    (hET : dictGetD dd "event_type" (.str "") = .str "new_message")
    (hMsg : dictGetD dd "message" (.dict []) = .dict md)
    (hText : dictGetD md "text" (.str "") = .str t)
    (hChat : dictGetD dd "chat" (.dict []) = .dict cd)
    (hTrig : pyLower (pyStrip t) ≠ "backlog") :
    webhook hmacHex inp = ⟨200, ackOk, []⟩ ∧
    ∀ (tok : Option String) (fetch : Except String (List Row)),
      webhook hmacHex { inp with app_token := tok, fetch := fetch }
        = ⟨200, ackOk, []⟩ := by
  have key : ∀ (tok : Option String) (fetch : Except String (List Row)),
      webhook_events (.ok (.dict dd)) tok fetch = ⟨200, ackOk, []⟩ := by
    intro tok fetch
    rw [webhook_events_new_message dd md cd t _ _ hET hMsg hText hChat]
    rw [if_neg (by simp [hTrig])]
  constructor
  · rw [webhook_gate_pass hmacHex inp hGate, hBody]
    exact key _ _
  · intro tok fetch
    rw [webhook_gate_pass hmacHex _ (by simpa using hGate)]
    simp only [hBody]
    exact key tok fetch

/-- C6 witness: a `"Hello"` message is acknowledged with no send, even when
the token is absent and the fetch would fail. -/
theorem non_trigger_message_no_send_witness :
    webhook hmacZero inpHello = ⟨200, ackOk, []⟩ ∧
    webhook hmacZero { inpHello with app_token := Option.none, fetch := .error "x" }
      = ⟨200, ackOk, []⟩ :=
  ⟨(non_trigger_message_no_send hmacZero inpHello (Or.inl rfl) rfl rfl rfl rfl rfl
      (by decide)).1,
   (non_trigger_message_no_send hmacZero inpHello (Or.inl rfl) rfl rfl rfl rfl rfl
      (by decide)).2 Option.none (.error "x")⟩

/-- C7: when the spreadsheet fetch raises, a triggering request still sends
exactly one reply to the originating chat, and that reply is the fixed
user-visible error message — a constant independent of the raised
exception text, and different from every formatted task list. -/
theorem fetch_failure_sends_fixed_error (hmacHex : String → List Nat → String)
    (inp : WebhookInput) {dd md cd : List (String × PyVal)} {t : String}
    (tok e : String)
    (hGate : envTruthy inp.signing_secret = false ∨
      verify_webhook_signature hmacHex inp.request_data inp.signature
        inp.signing_secret = true)
    (hBody : inp.body = .ok (.dict dd))
    (hET : dictGetD dd "event_type" (.str "") = .str "new_message")
    (hMsg : dictGetD dd "message" (.dict []) = .dict md)
    (hText : dictGetD md "text" (.str "") = .str t)
    (hChat : dictGetD dd "chat" (.dict []) = .dict cd)
    (hTrig : pyLower (pyStrip t) = "backlog")
    (hTok : inp.app_token = some tok)
    (hTokNE : tok ≠ "")
    (hFetch : inp.fetch = .error e) :
    webhook hmacHex inp
      = ⟨200, ackOk, [(dictGetD cd "group_id" (.str ""), backlogErrorMessage)]⟩ ∧
    ∀ ts : List String, backlogErrorMessage ≠ format_backlog_message ts := by
  refine ⟨?_, errorMessage_ne_format⟩
  rw [webhook_gate_pass hmacHex inp hGate, hBody, hFetch,
    webhook_events_new_message dd md cd t _ _ hET hMsg hText hChat]
  rw [if_pos (by simp [hTrig]), hTok]
  have h1 : tok.isEmpty = false := by
    cases h2 : tok.isEmpty with
    | false => rfl
    | true => exact absurd ((String.isEmpty_iff tok).mp h2) hTokNE
  have htok : envTruthy (some tok) = true := by
    show (!tok.isEmpty) = true
    rw [h1]
    rfl
  rw [htok]
  rfl

/-- C7 witness: with the sample triggering request and a failing fetch, the
reply sent to group `"G1"` is the fixed error message, which differs from
the empty-backlog task list. -/
theorem fetch_failure_sends_fixed_error_witness :
    webhook hmacZero inpFetchError
      = ⟨200, ackOk, [(.str "G1", backlogErrorMessage)]⟩ ∧
    backlogErrorMessage ≠ format_backlog_message [] :=
  ⟨(fetch_failure_sends_fixed_error hmacZero inpFetchError "tok" "boom" (Or.inl rfl)
      rfl rfl rfl rfl rfl (by decide) rfl (by decide) rfl).1,
   (fetch_failure_sends_fixed_error hmacZero inpFetchError "tok" "boom" (Or.inl rfl)
      rfl rfl rfl rfl rfl (by decide) rfl (by decide) rfl).2 []⟩

/-- C8: the message formatter is a total function; the empty task list
yields the fixed no-tasks message; a non-empty list yields the header
followed by one `"• task"` bulleted line per task in input order; and on
`["A", "B"]` the output exhibits `"• A"` strictly before `"• B"`. -/
theorem format_backlog_message_spec :
    format_backlog_message []
      = "📋 *Backlog atual:*\n\nNenhuma tarefa no backlog no momento." ∧
    (∀ (t : String) (rest : List String),
      format_backlog_message (t :: rest)
        = backlogHeader ++ pyJoin "" ((t :: rest).map (fun x => "\n• " ++ x))) ∧
    format_backlog_message ["A", "B"]
      = "📋 *Backlog atual:*\n\n" ++ "• A" ++ "\n" ++ "• B" :=
  ⟨rfl, format_backlog_message_cons, rfl⟩

/-- C9: whenever the backlog filter returns a task list, no returned task is
the empty string, and every returned task is already stripped (stripping it
again changes nothing). -/
theorem get_backlog_tasks_no_empty_names (rows : List Row) (ts : List String)
    (h : get_backlog_tasks (.ok rows) = .ok ts) :
    ∀ t ∈ ts, t ≠ "" ∧ pyStrip t = t := by
  have hloop : backlogOfRows rows = .ok ts := by
    unfold get_backlog_tasks at h
    dsimp only at h
    cases hrec : backlogOfRows rows with
    | error e =>
      rw [hrec] at h
      simp at h
    | ok ts2 =>
      rw [hrec] at h
      simp at h
      rw [h]
  obtain ⟨hlen2, hmem⟩ := backlogOfRows_sound rows ts hloop
  intro t ht
  obtain ⟨row, hrow2, hst2, v, hv2, heq, hne⟩ := hmem t ht
  subst heq
  constructor
  · intro he
    rw [he] at hne
    cases hne
  · exact pyStrip_idem _

/-- C9 witness: the task produced from the sample rows is non-empty and
stripped. -/
theorem get_backlog_tasks_no_empty_names_witness :
    "Fix bug" ≠ "" ∧ pyStrip "Fix bug" = "Fix bug" :=
  get_backlog_tasks_no_empty_names sampleRows ["Fix bug"] rfl "Fix bug" (by simp)

/-- C10: when the signing secret is absent or empty, the verifier accepts
every raw body and every signature header value (the absent header is the
empty string); consequently the dispatcher never answers 401 and its
response is independent of the signature header — unsigned requests are
processed without any signature check. -/
theorem no_signature_check_when_secret_unset (hmacHex : String → List Nat → String)
    (inp : WebhookInput)
    (hsec : inp.signing_secret = Option.none ∨ inp.signing_secret = some "") :
    (∀ (raw : List Nat) (sig : String),
      verify_webhook_signature hmacHex raw sig inp.signing_secret = true) ∧
    (webhook hmacHex inp).status ≠ 401 ∧
    ∀ sig2 : String,
      webhook hmacHex { inp with signature := sig2 } = webhook hmacHex inp := by
  have hfalse : envTruthy inp.signing_secret = false := by
    rcases hsec with h | h <;> rw [h] <;> rfl
  have hverify : ∀ (raw : List Nat) (sig : String),
      verify_webhook_signature hmacHex raw sig inp.signing_secret = true := by
    intro raw sig
    rcases hsec with h | h <;> rw [h] <;> rfl
  refine ⟨hverify, ?_, ?_⟩
  · rw [webhook_gate_pass hmacHex inp (Or.inl hfalse)]
    exact webhook_events_status_ne_401 _ _ _
  · intro sig2
    rw [webhook_gate_pass hmacHex inp (Or.inl hfalse),
      webhook_gate_pass hmacHex _ (Or.inl (by simpa using hfalse))]

/-- C10 witness: with no signing secret, a concrete body and signature
verify, the status is not 401, and changing the signature header leaves the
response unchanged. -/
theorem no_signature_check_when_secret_unset_witness :
    verify_webhook_signature hmacZero [1, 2] "abc" Option.none = true ∧
    (webhook hmacZero inpRaise).status ≠ 401 ∧
    webhook hmacZero { inpRaise with signature := "zzz" } = webhook hmacZero inpRaise :=
  ⟨(no_signature_check_when_secret_unset hmacZero inpRaise (Or.inl rfl)).1 [1, 2] "abc",
   (no_signature_check_when_secret_unset hmacZero inpRaise (Or.inl rfl)).2.1,
   (no_signature_check_when_secret_unset hmacZero inpRaise (Or.inl rfl)).2.2 "zzz"⟩

end App
